import Mathlib

/-!
Verification of the upload-and-measure pipeline of the `upload-gb` service
(final version of `main.go`: the Gin `POST /upload` handler with the
performance monitor, benchmark log writer, and derived metrics).

The Go code is embedded shallowly:
* `monitorPerformance` becomes a fold over the list of tick samples the
  ticker delivered before the done channel was observed;
* the upload handler becomes a pure function over an oracle (`Env`)
  recording the outcome of each effectful call it makes, in program order,
  together with an explicit filesystem map;
* `float64` values that matter to the claims (the transfer rate) are
  modelled by `FloatVal`, a rational-valued model of IEEE binary64 that
  keeps the special values `+Inf`, `-Inf`, `NaN` produced by division;
* Go `uint64` arithmetic (the `maxMem - initialMemory` subtraction) is
  modelled on `Nat` with an explicit `% 2^64`;
* the handler/monitor synchronisation structure is modelled separately as
  a set of schedules (interleavings) over the four racing events, with the
  happens-before edges the Go memory model actually provides.
-/

/-! ## Memory model constants -/

/-- The modulus of Go `uint64` arithmetic. -/
def u64Mod : Nat := 2 ^ 64

/-- Go `uint64` subtraction `a - b`, which wraps modulo `2^64`.
Embeds line 387 `memoryUsed := maxMem - initialMemory`. -/
def u64sub (a b : Nat) : Nat := (a % u64Mod + u64Mod - b % u64Mod) % u64Mod

/-! ## Float model

A value-level model of the `float64` results the handler computes.  Only
division is needed: `transferRate := float64(written) / copyDuration.Seconds()`
(line 384) and the later `/1024/1024` scalings.  Finite values are exact
rationals; the IEEE special results of division (`x/0`) are kept. -/

inductive FloatVal where
  | finite (q : ℚ)
  | posInf
  | negInf
  | nan
  deriving Repr, DecidableEq

/-- IEEE binary64 division on the model, for the operand shapes the
program produces: finite/finite (with the 0-divisor special cases),
infinity divided by a finite value, and NaN propagation. -/
def fdiv : FloatVal → FloatVal → FloatVal
  | .finite a, .finite b =>
      if b = 0 then
        if a = 0 then .nan else if 0 < a then .posInf else .negInf
      else .finite (a / b)
  | .posInf, .finite b => if 0 ≤ b then .posInf else .negInf
  | .negInf, .finite b => if 0 ≤ b then .negInf else .posInf
  | _, _ => .nan

/-! ## Performance monitor

`monitorPerformance` (lines 209-260) loops on a `select` over the ticker
channel and the done channel.  Its observable input is the sequence of
ticks that fired before the done signal was observed; each tick carries
the memory reading `m.Alloc` and the goroutine count sampled at that tick.
`startNumCPU = runtime.NumCPU()` is read once at entry. -/

structure TickSample where
  alloc : Nat
  goroutines : Nat
  deriving Repr, DecidableEq

/-- Per-tick CPU estimate, line 239:
`cpuEstimate := (numGoroutines / float64(startNumCPU)) * 100`. -/
def cpuEstimate (numCPU : Nat) (t : TickSample) : ℚ :=
  ((t.goroutines : ℚ) / (numCPU : ℚ)) * 100

/-- The monitor loop: on each tick update `maxMem` and accumulate the CPU
estimate; on done, return `maxMem` and the average (0 if no samples). -/
def monitorLoop (numCPU : Nat) :
    List TickSample → Nat → ℚ → Nat → Nat × ℚ
  | [], maxMem, totalCPU, samples =>
      (maxMem, if 0 < samples then totalCPU / (samples : ℚ) else 0)
  | t :: ts, maxMem, totalCPU, samples =>
      monitorLoop numCPU ts
        (if maxMem < t.alloc then t.alloc else maxMem)
        (totalCPU + cpuEstimate numCPU t)
        (samples + 1)

/-- `monitorPerformance` with the given tick trace: `maxMem` starts at 0,
the CPU accumulator and sample count start at 0 (lines 214-216). -/
def monitorPerformance (numCPU : Nat) (ticks : List TickSample) : Nat × ℚ :=
  monitorLoop numCPU ticks 0 0 0

/-! ## Upload handler

The handler (lines 290-455) is a linear sequence of effectful calls with
early-error returns.  `Env` is the oracle giving each call its outcome, in
program order.  The filesystem is a map from path to file content. -/

/-- File contents as a list of byte values. -/
abbrev Bytes := List Nat

/-- Filesystem state: which regular files exist and their contents. -/
abbrev Fs := String → Option Bytes

/-- The multipart file header returned by `c.FormFile("file")`.
`declaredSize` is `fileHeader.Size`, metadata only. -/
structure FormFile where
  filename : String
  declaredSize : Int
  deriving Repr, DecidableEq

/-- Outcome of `io.Copy(dst, file)` (line 369): either the full content is
streamed, or an I/O error occurs after some bytes were written. -/
inductive CopyOutcome where
  | ok (content : Bytes)
  | err (partBytes : Bytes) (msg : String)
  deriving Repr, DecidableEq

/-- Oracle for the effectful calls of one request, in program order. -/
structure Env where
  /-- `runtime.NumCPU()` observed by the monitor. -/
  numCPU : Nat
  /-- `getMemoryUsage()` at request start (line 292), a `uint64`. -/
  initialMemory : Nat
  /-- Ticks the monitor completed before the done channel was observed. -/
  monitorTicks : List TickSample
  /-- `os.MkdirAll(destDir, 0755)` (line 321): `none` on success. -/
  mkdirErr : Option String
  /-- `c.FormFile("file")` (line 329). -/
  formFileRes : Except String FormFile
  /-- `fileHeader.Open()` (line 346): `none` on success. -/
  openErr : Option String
  /-- `os.Create(destPath)` (line 356): `none` on success. -/
  createErr : Option String
  /-- `io.Copy(dst, file)` (line 369). -/
  copyRes : CopyOutcome
  /-- `copyDuration.Seconds()` (line 377), a nonnegative measured value. -/
  copyDurationSec : ℚ
  /-- `runtime.NumGoroutine()` snapshot at completion (line 389). -/
  finalGoroutines : Int
  deriving Repr

/-- The benchmark record (lines 405-414) handed to the async writer. -/
structure BenchmarkResult where
  fileName : String
  fileSize : Int
  durationSec : ℚ
  transferRate : FloatVal
  memoryUsage : Nat
  cpuUsage : ℚ
  numGoroutines : Int
  deriving Repr, DecidableEq

/-- Everything one handler invocation produces: the JSON response fields,
the filesystem afterwards, the benchmark dispatch, and bookkeeping for the
control-flow claims (`close(perfDone)` count, filesystem calls made). -/
structure HandlerOut where
  /-- HTTP status code of the response. -/
  status : Nat
  /-- The `error` field of an error response. -/
  errorMsg : Option String := none
  /-- The `size` field of the success response (`written`, an `int64`). -/
  respSize : Option Int := none
  /-- The `destination` field of the success response. -/
  respDestination : Option String := none
  /-- The value formatted into the `transfer_rate` field:
  `transferRate/1024/1024`. -/
  respTransferRate : Option FloatVal := none
  /-- The `uint64` value formatted into the `memory_used_mb` field. -/
  respMemoryUsed : Option Nat := none
  /-- The value formatted into the `cpu_usage` field. -/
  respCpuUsage : Option ℚ := none
  /-- Filesystem after the handler returns. -/
  fs : Fs
  /-- Number of benchmark log lines dispatched (goroutine at line 417). -/
  benchDispatches : Nat := 0
  /-- The record handed to the dispatched writer, when any. -/
  benchResult : Option BenchmarkResult := none
  /-- Number of `close(perfDone)` executed on this control path. -/
  perfCloses : Nat := 0
  /-- Number of filesystem calls made (MkdirAll, Create, Copy). -/
  fsCalls : Nat := 0

/-- The `POST /upload` handler (lines 290-455) as a function of the `dest`
query parameter (empty string models the absent parameter), the effect
oracle, and the initial filesystem. -/
def uploadHandler (destPath : String) (env : Env) (fs : Fs) : HandlerOut :=
  -- lines 309-315: validate destination
  if destPath = "" then
    { status := 400, errorMsg := some "destination path is required",
      fs := fs, perfCloses := 1 }
  else
    -- lines 320-326: ensure destination directory exists
    match env.mkdirErr with
    | some e =>
        { status := 500, errorMsg := some ("failed to create directory: " ++ e),
          fs := fs, perfCloses := 1, fsCalls := 1 }
    | none =>
    -- lines 329-335: get file from request
    match env.formFileRes with
    | .error e =>
        { status := 400, errorMsg := some ("failed to get file: " ++ e),
          fs := fs, perfCloses := 1, fsCalls := 1 }
    | .ok fileHeader =>
    -- lines 346-352: open the uploaded file
    match env.openErr with
    | some e =>
        { status := 500, errorMsg := some ("failed to open file: " ++ e),
          fs := fs, perfCloses := 1, fsCalls := 1 }
    | none =>
    -- lines 356-362: create destination file (truncate-or-create)
    match env.createErr with
    | some e =>
        { status := 500,
          errorMsg := some ("failed to create destination file: " ++ e),
          fs := fs, perfCloses := 1, fsCalls := 2 }
    | none =>
    -- lines 369-375: stream the file to disk
    match env.copyRes with
    | .err partBytes e =>
        -- mid-copy error: the partially written file is left on disk
        { status := 500, errorMsg := some ("failed to save file: " ++ e),
          fs := fun p => if p = destPath then some partBytes else fs p,
          perfCloses := 1, fsCalls := 3 }
    | .ok content =>
        -- line 369: written is the byte count returned by io.Copy
        let written : Int := (content.length : Int)
        -- line 381: close(perfDone); lines 384-387 read the monitor result
        let perf := monitorPerformance env.numCPU env.monitorTicks
        let maxMem := perf.1
        let avgCPU := perf.2
        -- line 384: transferRate := float64(written) / copyDuration.Seconds()
        let transferRate :=
          fdiv (.finite (written : ℚ)) (.finite env.copyDurationSec)
        -- line 387: memoryUsed := maxMem - initialMemory (uint64)
        let memoryUsed := u64sub maxMem env.initialMemory
        { status := 200,
          respSize := some written,
          respDestination := some destPath,
          respTransferRate :=
            some (fdiv (fdiv transferRate (.finite 1024)) (.finite 1024)),
          respMemoryUsed := some memoryUsed,
          respCpuUsage := some avgCPU,
          fs := fun p => if p = destPath then some content else fs p,
          benchDispatches := 1,
          benchResult := some
            { fileName := fileHeader.filename,
              fileSize := written,
              durationSec := env.copyDurationSec,
              transferRate := transferRate,
              memoryUsage := memoryUsed,
              cpuUsage := avgCPU,
              numGoroutines := env.finalGoroutines },
          perfCloses := 1, fsCalls := 3 }

/-! ## Benchmark log writer

The goroutine at lines 417-444: take the mutex, open `benchmark.txt` in
append mode, write one formatted line, close.  Open or write failure is
logged and the goroutine returns; nothing reaches the handler. -/

/-- Oracle for the writer's two effectful calls. -/
structure BenchEnv where
  /-- `os.OpenFile("benchmark.txt", ...)`: `none` on success. -/
  openErr : Option String
  /-- `f.WriteString(benchmarkLine)`: `none` on success. -/
  writeErr : Option String
  deriving Repr, DecidableEq

/-- The formatted benchmark line (lines 428-439). -/
def formatBenchLine (r : BenchmarkResult) : String :=
  "File: " ++ r.fileName ++ ", Size: " ++ toString r.fileSize ++ " bytes"

/-- One run of the writer goroutine: returns the log contents afterwards
and the error it logged, if any.  On failure the log is unchanged and the
error is swallowed (only logged). -/
def benchAppend (benv : BenchEnv) (line : String) (log : List String) :
    List String × Option String :=
  match benv.openErr with
  | some e => (log, some ("failed to open benchmark file: " ++ e))
  | none =>
    match benv.writeErr with
    | some e => (log, some ("failed to write to benchmark file: " ++ e))
    | none => (log ++ [line], none)

/-- One request end to end: the handler runs, and the writer goroutine it
dispatched (if any) then runs against the benchmark log.  The handler
never reads anything back from the writer. -/
def systemRun (destPath : String) (env : Env) (benv : BenchEnv)
    (fs : Fs) (log : List String) : HandlerOut × List String :=
  let out := uploadHandler destPath env fs
  match out.benchResult with
  | none => (out, log)
  | some r => (out, (benchAppend benv (formatBenchLine r) log).1)

/-! ## Synchronisation model for the result handoff

The handler starts `go func() { maxMem, avgCPU = monitorPerformance(...) }`
(lines 299-301), later executes `close(perfDone)` (line 381), and then
reads `maxMem`/`avgCPU` (lines 384-387).  The monitor observes the closed
channel in its `select` (line 253) and the goroutine then performs the
assignment.  The only cross-thread happens-before edge in this code is
`close(perfDone)` before the monitor observing done: the handler performs
no receive, lock, or WaitGroup wait between the close and its reads.  A
schedule is any merge of the two program orders respecting that edge. -/

inductive RaceEv where
  /-- handler: `close(perfDone)`, line 381 -/
  | hClose
  /-- handler: reads of `maxMem` and `avgCPU`, lines 384-387 -/
  | hRead
  /-- monitor: `case <-done` observed, line 253 -/
  | mObserve
  /-- goroutine: `maxMem, avgCPU = ...` assignment, line 300 -/
  | mWrite
  deriving Repr, DecidableEq

/-- Program order of the handler goroutine between lines 381 and 387. -/
def handlerOrder : List RaceEv := [.hClose, .hRead]

/-- Program order of the monitor goroutine: observe done, then assign. -/
def monitorOrder : List RaceEv := [.mObserve, .mWrite]

/-- Valid schedules: interleavings of the two program orders in which the
close of the channel precedes the monitor observing it (the one
happens-before edge the code establishes). -/
def isSchedule (l : List RaceEv) : Prop :=
  handlerOrder.Sublist l ∧ monitorOrder.Sublist l ∧ l.length = 2 + 2 ∧
  l.indexOf .hClose < l.indexOf .mObserve

instance (l : List RaceEv) : Decidable (isSchedule l) := by
  unfold isSchedule; infer_instance

/-- The racy schedule: the handler reads the result variables before the
monitor goroutine has written them. -/
def raceSchedule : List RaceEv := [.hClose, .hRead, .mObserve, .mWrite]

/-! ## Concrete inputs used by witnesses and counterexamples -/

/-- The empty filesystem. -/
def fs0 : Fs := fun _ => none

/-- A fully successful 3-byte upload whose declared size (999) disagrees
with the actual content length. -/
def envC1 : Env :=
  { numCPU := 8, initialMemory := 0, monitorTicks := [⟨5000, 16⟩],
    mkdirErr := none, formFileRes := .ok ⟨"a.bin", 999⟩, openErr := none,
    createErr := none, copyRes := .ok [7, 8, 9], copyDurationSec := 2,
    finalGoroutines := 7 }

/-- A 0-byte upload whose copy duration rounds to zero. -/
def envC2 : Env :=
  { numCPU := 8, initialMemory := 0, monitorTicks := [],
    mkdirErr := none, formFileRes := .ok ⟨"empty.dat", 0⟩, openErr := none,
    createErr := none, copyRes := .ok [], copyDurationSec := 0,
    finalGoroutines := 7 }

/-- A 1-byte upload whose copy duration rounds to zero. -/
def envC2pos : Env :=
  { numCPU := 8, initialMemory := 0, monitorTicks := [],
    mkdirErr := none, formFileRes := .ok ⟨"one.dat", 1⟩, openErr := none,
    createErr := none, copyRes := .ok [42], copyDurationSec := 0,
    finalGoroutines := 7 }

/-- A successful upload during which the monitor saw no tick (peak 0)
while the memory at request start was 1 byte: the peak is below the
initial reading. -/
def envC3 : Env :=
  { numCPU := 8, initialMemory := 1, monitorTicks := [],
    mkdirErr := none, formFileRes := .ok ⟨"c3.bin", 4⟩, openErr := none,
    createErr := none, copyRes := .ok [1, 2], copyDurationSec := 1,
    finalGoroutines := 7 }

/-! ## Theorems -/

/-- C1: whenever the byte copy completes without error (so every earlier
stage succeeded), the handler responds 200, the `size` field equals the
byte count returned by the copy (the ground truth, independent of the
declared size `fh.declaredSize`), and a file of exactly that length holds
the copied content at the destination path afterwards. -/
theorem upload_success_size_and_file (destPath : String) (env : Env)
    (fs : Fs) (fh : FormFile) (content : Bytes)
    (hdest : destPath ≠ "") (hmk : env.mkdirErr = none)
    (hff : env.formFileRes = .ok fh) (hop : env.openErr = none)
    (hcr : env.createErr = none) (hcp : env.copyRes = .ok content) :
    (uploadHandler destPath env fs).status = 200 ∧
    (uploadHandler destPath env fs).respSize = some (content.length : ℤ) ∧
    ∃ c, (uploadHandler destPath env fs).fs destPath = some c ∧
      c.length = content.length := by
  unfold uploadHandler
  rw [if_neg hdest, hmk, hff, hop, hcr, hcp]
  refine ⟨rfl, rfl, content, ?_, rfl⟩
  simp

/-- Witness for C1: the concrete 3-byte upload `envC1` (declared size 999)
responds 200 with size 3 and leaves a 3-byte file at the destination. -/
theorem upload_success_size_and_file_witness :
    (uploadHandler "/tmp/c1.bin" envC1 fs0).status = 200 ∧
    (uploadHandler "/tmp/c1.bin" envC1 fs0).respSize =
      some (([7, 8, 9] : Bytes).length : ℤ) ∧
    ∃ c, (uploadHandler "/tmp/c1.bin" envC1 fs0).fs "/tmp/c1.bin" = some c ∧
      c.length = ([7, 8, 9] : Bytes).length :=
  upload_success_size_and_file "/tmp/c1.bin" envC1 fs0 ⟨"a.bin", 999⟩
    [7, 8, 9] (by decide) rfl rfl rfl rfl rfl

/-- C2 (violated by the code): the transfer-rate computation
`float64(written) / copyDuration.Seconds()` at line 384 has no
divide-by-zero guard, so when the measured duration rounds to zero a
0-byte upload makes the value formatted into the response NaN, and a
nonempty upload makes it +Inf. -/
theorem transferRate_unguarded_nan_and_inf :
    (uploadHandler "/tmp/empty.dat" envC2 fs0).status = 200 ∧
    (uploadHandler "/tmp/empty.dat" envC2 fs0).respTransferRate =
      some FloatVal.nan ∧
    (uploadHandler "/tmp/one.dat" envC2pos fs0).status = 200 ∧
    (uploadHandler "/tmp/one.dat" envC2pos fs0).respTransferRate =
      some FloatVal.posInf := by decide

/-- Counterexample to C3 as stated: on the concrete upload `envC3`
(monitor peak 0, initial memory 1) the reported memory-used value is
`2^64 - 1`, which is not the integer difference `0 - 1 = -1`: the uint64
subtraction wrapped instead of propagating a negative difference. -/
theorem memoryUsed_wraps_counterexample :
    (uploadHandler "/tmp/c3.bin" envC3 fs0).respMemoryUsed =
      some (2 ^ 64 - 1) ∧
    ¬ ((2 ^ 64 - 1 : ℤ) = (0 : ℤ) - 1) := by decide

/-- C3 amended: on every successful upload the reported memory-used value
is the uint64 difference `maxMem - initialMemory`, i.e. it is congruent to
the integer difference modulo `2^64`; when the peak is below the initial
reading it wraps to `2^64 - (initial - peak)` rather than being a negative
difference or a clamped zero. -/
theorem memoryUsed_mod_u64 (destPath : String) (env : Env) (fs : Fs)
    (fh : FormFile) (content : Bytes)
    (hdest : destPath ≠ "") (hmk : env.mkdirErr = none)
    (hff : env.formFileRes = .ok fh) (hop : env.openErr = none)
    (hcr : env.createErr = none) (hcp : env.copyRes = .ok content)
    (hpk : (monitorPerformance env.numCPU env.monitorTicks).1 < u64Mod)
    (hin : env.initialMemory < u64Mod) :
    ∃ m, (uploadHandler destPath env fs).respMemoryUsed = some m ∧
      (m : ℤ) % 2 ^ 64 =
        (((monitorPerformance env.numCPU env.monitorTicks).1 : ℤ) -
          (env.initialMemory : ℤ)) % 2 ^ 64 ∧
      ((monitorPerformance env.numCPU env.monitorTicks).1 <
          env.initialMemory →
        m = u64Mod -
          (env.initialMemory -
            (monitorPerformance env.numCPU env.monitorTicks).1)) := by
  refine ⟨u64sub (monitorPerformance env.numCPU env.monitorTicks).1
    env.initialMemory, ?_, ?_, ?_⟩
  · unfold uploadHandler
    rw [if_neg hdest, hmk, hff, hop, hcr, hcp]
  · unfold u64sub u64Mod at *
    omega
  · intro hlt
    unfold u64sub u64Mod at *
    omega

/-- Witness for C3 amended: on `envC3` the reported value is congruent to
`0 - 1` modulo `2^64` and equals `2^64 - 1` because the peak (0) is below
the initial reading (1). -/
theorem memoryUsed_mod_u64_witness :
    ∃ m, (uploadHandler "/tmp/c3.bin" envC3 fs0).respMemoryUsed = some m ∧
      (m : ℤ) % 2 ^ 64 =
        (((monitorPerformance envC3.numCPU envC3.monitorTicks).1 : ℤ) -
          (envC3.initialMemory : ℤ)) % 2 ^ 64 ∧
      ((monitorPerformance envC3.numCPU envC3.monitorTicks).1 <
          envC3.initialMemory →
        m = u64Mod -
          (envC3.initialMemory -
            (monitorPerformance envC3.numCPU envC3.monitorTicks).1)) :=
  memoryUsed_mod_u64 "/tmp/c3.bin" envC3 fs0 ⟨"c3.bin", 4⟩ [1, 2]
    (by decide) rfl rfl rfl rfl rfl (by decide) (by decide)

/-- C4 (violated by the code): the schedule in which the handler closes
`perfDone` and immediately reads `maxMem`/`avgCPU` before the monitor
goroutine has performed its assignment is a valid interleaving under the
code's only happens-before edge (close before observe) — so the handler
does not block on a result handoff, and the read can precede the write:
a data race on the two result variables. -/
theorem handler_read_races_monitor_write :
    isSchedule raceSchedule ∧
    raceSchedule.indexOf RaceEv.hRead <
      raceSchedule.indexOf RaceEv.mWrite := by decide

/-- Generalisation of the monitor loop over its accumulators: the second
component returned on done is the average of the accumulated total and the
remaining per-tick estimates, and 0 when nothing was accumulated. -/
theorem monitorLoop_snd (numCPU : Nat) (ticks : List TickSample) :
    ∀ (m : Nat) (tot : ℚ) (s : Nat),
    (monitorLoop numCPU ticks m tot s).2 =
      if s + ticks.length = 0 then 0
      else (tot + (ticks.map (cpuEstimate numCPU)).sum) /
        ((s : ℚ) + (ticks.length : ℚ)) := by
  induction ticks with
  | nil =>
      intro m tot s
      rcases Nat.eq_zero_or_pos s with hs | hs
      · subst hs; simp [monitorLoop]
      · simp [monitorLoop, hs, Nat.pos_iff_ne_zero.mp hs]
  | cons t ts ih =>
      intro m tot s
      rw [monitorLoop, ih]
      have h1 : s + 1 + ts.length ≠ 0 := by omega
      have h2 : s + (t :: ts).length ≠ 0 := by simp
      rw [if_neg h1, if_neg h2]
      simp only [List.map_cons, List.sum_cons, List.length_cons]
      push_cast
      ring_nf

/-- C5: the average CPU the monitor returns on the stop signal is the
arithmetic mean, over the completed ticks, of the per-tick estimate
`(goroutines / numCPU) * 100`, and 0 when no tick completed. -/
theorem monitor_avg_cpu_is_mean (numCPU : Nat) (ticks : List TickSample) :
    (monitorPerformance numCPU ticks).2 =
      if ticks = [] then 0
      else (ticks.map
          (fun t => ((t.goroutines : ℚ) / (numCPU : ℚ)) * 100)).sum /
        (ticks.length : ℚ) := by
  have hce : cpuEstimate numCPU =
      fun t => ((t.goroutines : ℚ) / (numCPU : ℚ)) * 100 := rfl
  rw [monitorPerformance, monitorLoop_snd, hce]
  rcases ticks with _ | ⟨t, ts⟩
  · simp
  · have h2 : 0 + (t :: ts).length ≠ 0 := by simp
    rw [if_neg h2, if_neg (by simp : ¬ (t :: ts) = [])]
    simp

/-- C6: the handler dispatches exactly one benchmark log line when it
responds 200 (a successfully completed upload) and zero on every failing
path (empty destination, directory-creation failure, missing file field,
open failure, destination-creation failure, mid-copy error). -/
theorem bench_dispatch_iff_success (destPath : String) (env : Env)
    (fs : Fs) :
    (uploadHandler destPath env fs).benchDispatches =
      if (uploadHandler destPath env fs).status = 200 then 1 else 0 := by
  obtain ⟨nc, im, mt, mk, ff, op, cr, cp, cd, fg⟩ := env
  by_cases h : destPath = "" <;>
    cases mk <;> cases ff <;> cases op <;> cases cr <;> cases cp <;>
      simp [uploadHandler, h]

/-- C7: on an empty (or absent) `dest` query parameter the handler
responds 400 with error message "destination path is required", changes
nothing on the filesystem, makes no filesystem call at all, and dispatches
no benchmark line. -/
theorem empty_dest_400_no_side_effects (env : Env) (fs : Fs) :
    (uploadHandler "" env fs).status = 400 ∧
    (uploadHandler "" env fs).errorMsg =
      some "destination path is required" ∧
    (uploadHandler "" env fs).fs = fs ∧
    (uploadHandler "" env fs).fsCalls = 0 ∧
    (uploadHandler "" env fs).benchDispatches = 0 := by
  refine ⟨?_, ?_, ?_, ?_, ?_⟩ <;> simp [uploadHandler]

/-- C8: the HTTP outcome of a request is identical whatever the benchmark
writer's open/write calls do — the append's outcome is never observed by
the pipeline — and a failing append leaves the log unchanged while
returning only a logged error message (swallowed, never surfaced). -/
theorem bench_outcome_never_alters_response (destPath : String) (env : Env)
    (b1 b2 : BenchEnv) (fs : Fs) (log : List String) (e : String)
    (w : Option String) (line : String) :
    (systemRun destPath env b1 fs log).1 =
      (systemRun destPath env b2 fs log).1 ∧
    (benchAppend ⟨some e, w⟩ line log).1 = log ∧
    (benchAppend ⟨none, some e⟩ line log).1 = log := by
  refine ⟨?_, rfl, rfl⟩
  simp only [systemRun]
  cases h : (uploadHandler destPath env fs).benchResult <;> simp [h]

/-- C9: on every terminating control path of the handler — the five early
error returns, the mid-copy error return, and the success path —
`close(perfDone)` is executed exactly once. -/
theorem perf_done_closed_exactly_once (destPath : String) (env : Env)
    (fs : Fs) :
    (uploadHandler destPath env fs).perfCloses = 1 := by
  obtain ⟨nc, im, mt, mk, ff, op, cr, cp, cd, fg⟩ := env
  by_cases h : destPath = "" <;>
    cases mk <;> cases ff <;> cases op <;> cases cr <;> cases cp <;>
      simp [uploadHandler, h]

/-- C10: when the done channel is signalled before the first ticker
interval elapses (no completed tick), the monitor returns peak memory 0
and average CPU 0 — in particular the returned peak bears no relation to
the memory in use at request start. -/
theorem monitor_zero_when_done_before_first_tick (numCPU : Nat) :
    monitorPerformance numCPU [] = (0, 0) := rfl
